import Mathlib

/-!
Shallow embedding of `src/streamlit_dashboard.py` (Network Security Monitor
dashboard): the telemetry fetch layer, the module-level pagination
reconciliation, the traffic-table rendering decision, and the KPI metric
formatting, together with theorems settling the specification claims.

Modelling conventions:
* A Python `requests.get` call is modelled by an `HttpOutcome` value: either
  the call raised (timeout / transport error), or it returned a response with
  a status code and a body.  A body of `none` models `response.json()`
  raising on an unparseable payload; a `some` body is the parsed JSON,
  typed per endpoint with `Option` fields for keys that may be missing
  (Python `dict.get` with a default).
* Machine integers are `Nat` (Python ints are unbounded and all counters in
  play are non-negative); JSON numeric rates and confidences are `Rat`.
* String presentation (`strftime`, thousands separators, f-string suffixes)
  is kept as the underlying raw value; `round(c, 2)` over Python floats is
  approximated by exact rounding over `Rat`.
-/

set_option linter.unusedVariables false

namespace Dashboard

/-- Outcome of one `requests.get` call.  `exn` covers a timeout or transport
error (the call raised); `response status body` is an HTTP response whose
parsed JSON body is `some` payload, or `none` when `response.json()` raises
on an unparseable body. -/
inductive HttpOutcome (α : Type) where
  | exn : HttpOutcome α
  | response (status : Nat) (body : Option α) : HttpOutcome α
deriving DecidableEq

/-- Parsed JSON body of `GET /api/stats`; each field may be absent
(`data.get(key, 0)` in the source supplies the default). -/
structure StatsJson where
  packet_count : Option Nat
  byte_count : Option Nat
  detection_rate : Option Rat
deriving DecidableEq

/-- Normalized stats snapshot returned by `fetch_stats`. -/
structure Stats where
  packet_count : Nat
  byte_count : Nat
  detection_rate : Rat
deriving DecidableEq

/-- The defaults `fetch_stats` falls back to (lines 44-49). -/
def statsDefault : Stats :=
  { packet_count := 0, byte_count := 0, detection_rate := 0 }

/-- `fetch_stats` (lines 30-49): on a 200 response, read the three fields with
default 0 for missing keys; on any exception (timeout, transport error,
unparseable body) or a non-200 status, fall through to the defaults. -/
def fetch_stats (out : HttpOutcome StatsJson) : Stats :=
  match out with
  | .exn => statsDefault
  | .response status body =>
    if status = 200 then
      match body with
      | some data =>
          { packet_count := data.packet_count.getD 0
            byte_count := data.byte_count.getD 0
            detection_rate := data.detection_rate.getD 0 }
      | none => statsDefault
    else statsDefault

/-- The `packet` sub-object of one `/api/packets` element; every key may be
missing (`packet.get(key, default)` in the source). -/
structure PacketObj where
  timestamp : Option Nat
  src_ip : Option String
  dest_ip : Option String
  protocol : Option String
  length : Option Nat
deriving DecidableEq

/-- The `prediction` sub-object of one `/api/packets` element. -/
structure PredictionObj where
  label : Option String
  confidence : Option Rat
deriving DecidableEq

/-- One element of the `/api/packets` response list; the `packet` and
`prediction` sub-objects may themselves be missing
(`packet_info.get("packet", {})`). -/
structure PacketInfo where
  packet : Option PacketObj
  prediction : Option PredictionObj
deriving DecidableEq

/-- One row of the traffic table built by `fetch_packets` (lines 67-76).
String formatting is kept as raw values: `timestamp` is the raw epoch
second (the source renders it via `strftime`), `bytes` the raw length (the
source appends a `B` suffix), and `anomaly_score` the confidence rounded to
two decimals. -/
structure Row where
  timestamp : Nat
  source_ip : String
  destination_ip : String
  protocol : String
  packets : Nat
  bytes : Nat
  attack_type : String
  anomaly_score : Rat
deriving DecidableEq

/-- `round(c, 2)` of the source, as exact rounding over the rationals. -/
def roundTo2 (q : Rat) : Rat := (round (q * 100) : Int) / 100

/-- The row built from one packet element (lines 63-76): missing sub-objects
become empty ones, missing fields take the source defaults, the protocol is
upper-cased and the confidence rounded. -/
def rowOfPacketInfo (packet_info : PacketInfo) : Row :=
  let packet := packet_info.packet.getD
    { timestamp := none, src_ip := none, dest_ip := none,
      protocol := none, length := none }
  let prediction := packet_info.prediction.getD
    { label := none, confidence := none }
  { timestamp := packet.timestamp.getD 0
    source_ip := packet.src_ip.getD "N/A"
    destination_ip := packet.dest_ip.getD "N/A"
    protocol := (packet.protocol.getD "N/A").toUpper
    packets := 1
    bytes := packet.length.getD 0
    attack_type := prediction.label.getD "Unknown"
    anomaly_score := roundTo2 (prediction.confidence.getD 0) }

/-- `fetch_packets` (lines 51-82): `count` only forms the request query
string (`/api/packets?count=N`).  On a 200 response with a parsed list the
rows are built (an empty list short-circuits to `[]`, line 58-59); any
exception or non-200 status yields `[]`. -/
def fetch_packets (count : Nat) (out : HttpOutcome (List PacketInfo)) :
    List Row :=
  match out with
  | .exn => []
  | .response status body =>
    if status = 200 then
      match body with
      | some packets_data =>
          if packets_data = [] then []
          else packets_data.map rowOfPacketInfo
      | none => []
    else []

/-- Parsed JSON body of `GET /api/analytics/attack_distribution`: the
`distribution` key (an attack-label-to-count mapping, kept as an association
list to preserve insertion order) may be missing. -/
structure DistJson where
  distribution : Option (List (String × Nat))
deriving DecidableEq

/-- The default `fetch_attack_distribution` falls back to (line 93). -/
def distDefault : DistJson := { distribution := some [] }

/-- `fetch_attack_distribution` (lines 84-93): a 200 response is returned
as-is (`return response.json()`, no validation); any exception or non-200
status yields `{"distribution": {}}`. -/
def fetch_attack_distribution (out : HttpOutcome DistJson) : DistJson :=
  match out with
  | .exn => distDefault
  | .response status body =>
    if status = 200 then
      match body with
      | some data => data
      | none => distDefault
    else distDefault

/-- Parsed JSON body of `GET /api/analytics/time_trends`; each of the four
parallel sequences may be missing. -/
structure TrendsJson where
  timestamps : Option (List Nat)
  packet_rate : Option (List Rat)
  flow_rate : Option (List Rat)
  bytes_per_sec : Option (List Rat)
deriving DecidableEq

/-- The default `fetch_time_trends` falls back to (lines 104-109). -/
def trendsDefault : TrendsJson :=
  { timestamps := some [], packet_rate := some [],
    flow_rate := some [], bytes_per_sec := some [] }

/-- `fetch_time_trends` (lines 95-109): a 200 response is returned as-is
(`return response.json()`, no validation); any exception or non-200 status
yields the four empty sequences. -/
def fetch_time_trends (out : HttpOutcome TrendsJson) : TrendsJson :=
  match out with
  | .exn => trendsDefault
  | .response status body =>
    if status = 200 then
      match body with
      | some data => data
      | none => trendsDefault
    else trendsDefault

/-- A fetch attempt that genuinely failed at the HTTP layer: the call raised
(timeout or transport error), the status was non-2xx, or the body was
unparseable. -/
def fetchFailed {α : Type} (out : HttpOutcome α) : Prop :=
  out = .exn ∨
    ∃ status body, out = .response status body ∧ (status ≠ 200 ∨ body = none)

/-- `flows_per_page = 10` (line 145): the page size is a hardcoded constant. -/
def flows_per_page : Nat := 10

/-- `total_pages` (lines 148-151), parameterized over the page size so that
claims quantifying over page sizes can be stated; the module instantiates it
with `flows_per_page`:
`(total_flows + flows_per_page - 1) // flows_per_page` when `total_flows > 0`,
else `0`. -/
def total_pages_calc (total_flows fpp : Nat) : Nat :=
  if total_flows > 0 then (total_flows + fpp - 1) / fpp else 0

/-- The pagination values the module derives on one run: the (possibly
clamped) session `current_page` and the computed `total_pages`. -/
structure PaginationView where
  current_page : Nat
  total_pages : Nat
deriving DecidableEq

/-- Module-level pagination reconciliation (lines 148-155): compute
`total_pages` from the fresh total, then
`if total_pages > 0 and current_page > total_pages: current_page = total_pages`.
Nothing is done to `current_page` when `total_pages = 0`. -/
def reconcile (current_page total_flows fpp : Nat) : PaginationView :=
  { current_page :=
      if total_pages_calc total_flows fpp > 0 ∧
          current_page > total_pages_calc total_flows fpp then
        total_pages_calc total_flows fpp
      else current_page
    total_pages := total_pages_calc total_flows fpp }

/-- `start_flow` (line 296): first shown flow, 1-based. -/
def start_flow (current_page fpp : Nat) : Nat := (current_page - 1) * fpp + 1

/-- `end_flow` (line 297): last shown flow, 1-based inclusive. -/
def end_flow (current_page fpp total_flows : Nat) : Nat :=
  min (current_page * fpp) total_flows

/-- The state one module run derives from the stats and packets responses
(lines 128-159): stats snapshot, the authoritative `total_flows` read from
`stats.get("packet_count", 0)` (line 136), the reconciled pagination, and the
traffic rows fetched with `count=flows_per_page` (line 158). -/
structure RefreshView where
  stats : Stats
  total_flows : Nat
  pagination : PaginationView
  traffic : List Row
deriving DecidableEq

/-- One module run over the stats and packets outcomes, from a stored session
`current_page`. -/
def refresh_cycle (statsOut : HttpOutcome StatsJson)
    (packetsOut : HttpOutcome (List PacketInfo)) (stored_page : Nat) :
    RefreshView :=
  let stats := fetch_stats statsOut
  let total_flows := stats.packet_count
  { stats := stats
    total_flows := total_flows
    pagination := reconcile stored_page total_flows flows_per_page
    traffic := fetch_packets flows_per_page packetsOut }

/-- What the Live Network Traffic section shows (lines 241-300): the
populated table with its caption window, the per-page info message for an
empty dataframe, or — when `total_flows = 0` — the warning banner in place
of the whole section. -/
inductive TrafficView where
  | table (rows : List Row) (startFlow endFlow : Nat) : TrafficView
  | emptyPageInfo : TrafficView
  | warningNoData : TrafficView
deriving DecidableEq

/-- The traffic-section rendering decision of one module run: the section is
rendered only under `if total_flows > 0` (line 241); inside it, the table is
shown when the dataframe is non-empty (line 280) together with the caption
window (lines 296-298), else the info message (line 293); the `else` branch
(line 300) shows the warning. -/
def render_traffic (statsOut : HttpOutcome StatsJson)
    (packetsOut : HttpOutcome (List PacketInfo)) (stored_page : Nat) :
    TrafficView :=
  let rv := refresh_cycle statsOut packetsOut stored_page
  if rv.total_flows > 0 then
    if rv.traffic = [] then .emptyPageInfo
    else
      .table rv.traffic
        (start_flow rv.pagination.current_page flows_per_page)
        (end_flow rv.pagination.current_page flows_per_page rv.total_flows)
  else .warningNoData

/-- The rerun triggered after the operator moves the sidebar page-size
selector (lines 460-464): its value is bound to `flows_per_page_selector`
and never read again, so the rerun recomputes pagination with the hardcoded
`flows_per_page` and the persisted session `current_page`. -/
def rerun_after_page_size_select (selector : Nat)
    (stored_page total_flows : Nat) : PaginationView :=
  reconcile stored_page total_flows flows_per_page

/-- Which of the two value formats a KPI metric uses. -/
inductive MetricStyle where
  | millions : MetricStyle
  | grouped : MetricStyle
deriving DecidableEq

/-- Format selection of the Total Packets metric (line 192):
`f"{packet_count/1e6:.1f}M" if packet_count > 1e6 else f"{packet_count:,}"` —
the scaled form is chosen on the strict comparison `packet_count > 1e6`. -/
def total_packets_value_style (packet_count : Nat) : MetricStyle :=
  if packet_count > 1000000 then .millions else .grouped

/-- Format selection of the Total Flows metric (line 221), same strict
comparison against `1e6`. -/
def total_flows_value_style (total_flows : Nat) : MetricStyle :=
  if total_flows > 1000000 then .millions else .grouped

/-! ## Claims -/

/-- C2, counterexample: with a stored `current_page = 5` and a fresh total of
0 (so `total_pages = 0`), the clamp leaves `current_page` at 5 — it is not
reset to 1, and the invariant `current_page ≤ max(total_pages, 1)` fails. -/
theorem reconcile_zero_total_keeps_page :
    (reconcile 5 0 10).current_page = 5 ∧
      ¬ (reconcile 5 0 10).current_page ≤ max (reconcile 5 0 10).total_pages 1 := by
  decide

/-- C2 (amended): for every stored `current_page ≥ 1`, every fresh total and
every page size, when the computed `total_pages` is positive the clamp
establishes `1 ≤ current_page ≤ total_pages`; when `total_pages = 0` the
clamp leaves `current_page` unchanged (it is not reset to 1). -/
theorem reconcile_clamp_invariant (cp t fpp : Nat) (hcp : 1 ≤ cp) :
    (0 < (reconcile cp t fpp).total_pages →
      1 ≤ (reconcile cp t fpp).current_page ∧
        (reconcile cp t fpp).current_page ≤ (reconcile cp t fpp).total_pages) ∧
    ((reconcile cp t fpp).total_pages = 0 →
      (reconcile cp t fpp).current_page = cp) := by
  simp only [reconcile]
  constructor
  · intro htp
    constructor
    · split <;> omega
    · split <;> omega
  · intro htp
    split <;> omega

/-- C2 witness: the scenario where the total drops to 42 while the operator
sits on page 10 of size-10 pages. -/
theorem reconcile_clamp_invariant_witness :
    (0 < (reconcile 10 42 10).total_pages →
      1 ≤ (reconcile 10 42 10).current_page ∧
        (reconcile 10 42 10).current_page ≤ (reconcile 10 42 10).total_pages) ∧
    ((reconcile 10 42 10).total_pages = 0 →
      (reconcile 10 42 10).current_page = 10) :=
  reconcile_clamp_invariant 10 42 10 (by decide)

/-- C3: `total_pages` is 0 when the total is 0, and otherwise the integer
expression `(total_flows + fpp - 1) // fpp` of line 149 equals the exact
ceiling of `total_flows / fpp`, for every positive total and page size. -/
theorem total_pages_matches_ceil :
    (∀ fpp : Nat, total_pages_calc 0 fpp = 0) ∧
    ∀ t fpp : Nat, 0 < t → 0 < fpp →
      (total_pages_calc t fpp : Int) = ⌈(t : ℚ) / (fpp : ℚ)⌉ := by
  constructor
  · intro fpp; rfl
  · intro t fpp ht hfpp
    have hdm := Nat.div_add_mod (t + fpp - 1) fpp
    have hmlt : (t + fpp - 1) % fpp < fpp := Nat.mod_lt _ hfpp
    have htp : total_pages_calc t fpp = (t + fpp - 1) / fpp := by
      simp [total_pages_calc, ht]
    set q : Nat := (t + fpp - 1) / fpp with hq
    have hub : t ≤ fpp * q := by omega
    have hlb : fpp * q < t + fpp := by omega
    rw [htp, eq_comm, Int.ceil_eq_iff]
    have hfppQ : (0 : ℚ) < (fpp : ℚ) := by exact_mod_cast hfpp
    have hubQ : (t : ℚ) ≤ (fpp : ℚ) * (q : ℚ) := by exact_mod_cast hub
    have hlbQ : (fpp : ℚ) * (q : ℚ) < (t : ℚ) + (fpp : ℚ) := by
      exact_mod_cast hlb
    constructor
    · rw [lt_div_iff₀ hfppQ]
      push_cast
      ring_nf
      ring_nf at hlbQ
      linarith
    · rw [div_le_iff₀ hfppQ]
      push_cast
      ring_nf
      ring_nf at hubQ
      linarith

/-- C3 witness: 97 items in pages of 10 give 10 pages, and the zero case. -/
theorem total_pages_matches_ceil_witness :
    total_pages_calc 0 10 = 0 ∧
      (total_pages_calc 97 10 : Int) = ⌈(97 : ℚ) / (10 : ℚ)⌉ :=
  ⟨total_pages_matches_ceil.1 10,
    total_pages_matches_ceil.2 97 10 (by decide) (by decide)⟩

/-- C5: the module-level reconciliation is idempotent — re-running it on its
own output with the same fresh total and page size changes nothing. -/
theorem reconcile_idempotent (cp t fpp : Nat) :
    reconcile (reconcile cp t fpp).current_page t fpp = reconcile cp t fpp := by
  simp only [reconcile, PaginationView.mk.injEq]
  generalize total_pages_calc t fpp = tp
  refine ⟨?_, trivial⟩
  split_ifs <;> omega

/-- C10: the clamp never increases the stored page — after reconciliation
`current_page` is at most what it was before, for every fresh total. -/
theorem reconcile_nonincreasing (cp t fpp : Nat) :
    (reconcile cp t fpp).current_page ≤ cp := by
  simp only [reconcile]
  split <;> omega

/-- C4: moving the page-size selector to 20 while the session sits on page 5
with 97 total flows leaves the rerun at `current_page = 5` and
`total_pages = 10` (still computed with the hardcoded page size 10): the
selector value is never used, whereas the claim demands `current_page = 1`
and `total_pages = ceil(97/20) = 5`. -/
theorem page_size_selector_dead :
    rerun_after_page_size_select 20 5 97 =
        { current_page := 5, total_pages := 10 } ∧
      total_pages_calc 97 20 = 5 := by
  decide

/-- C8: for every page at least 1, the caption window of lines 296-297 is
`start_flow = (current_page - 1) * page_size + 1` and
`end_flow = min(current_page * page_size, total_flows)` as 1-based inclusive
bounds, and the 97-items scenario gives 10 pages with window [91, 97] on
page 10. -/
theorem display_window_bounds :
    (∀ cp fpp total : Nat, 1 ≤ cp →
      start_flow cp fpp = (cp - 1) * fpp + 1 ∧
        end_flow cp fpp total = min (cp * fpp) total) ∧
    total_pages_calc 97 10 = 10 ∧
      start_flow 10 10 = 91 ∧ end_flow 10 10 97 = 97 := by
  exact ⟨fun cp fpp total hcp => ⟨rfl, rfl⟩, by decide, by decide, by decide⟩

/-- C8 witness: the window formulas evaluated on page 3 of size-10 pages
over 97 items. -/
theorem display_window_bounds_witness :
    start_flow 3 10 = (3 - 1) * 10 + 1 ∧ end_flow 3 10 97 = min (3 * 10) 97 :=
  display_window_bounds.1 3 10 97 (by decide)

/-- C9, counterexample: at exactly 10^6 both metric sites choose the plain
grouped form, because the source compares with strict `> 1e6`; the claim
says a value at or above 10^6 is shown scaled. -/
theorem million_threshold_strict :
    total_packets_value_style 1000000 = MetricStyle.grouped ∧
      total_flows_value_style 1000000 = MetricStyle.grouped := by
  decide

/-- C9 (amended): the format choice is reproducible from the raw integer and
the fixed threshold 10^6 alone, but the cut is strict — scaled-millions form
exactly when the counter strictly exceeds 10^6, plain grouped form exactly
when it is at most 10^6, at both metric sites. -/
theorem metric_style_threshold (n : Nat) :
    (total_packets_value_style n = MetricStyle.millions ↔ 1000000 < n) ∧
      (total_flows_value_style n = MetricStyle.millions ↔ 1000000 < n) ∧
      (total_packets_value_style n = MetricStyle.grouped ↔ n ≤ 1000000) ∧
      (total_flows_value_style n = MetricStyle.grouped ↔ n ≤ 1000000) := by
  simp only [total_packets_value_style, total_flows_value_style]
  split_ifs with h <;> simp_all

/-- C6: on every module run the pagination total `total_flows` is exactly
`fetch_stats(...).packet_count` (line 136), and it is unchanged under any
substitution of the packets outcome — it is never inferred from the fetched
flow rows. -/
theorem total_flows_from_stats_only (statsOut : HttpOutcome StatsJson)
    (packetsOut packetsOut' : HttpOutcome (List PacketInfo))
    (stored_page : Nat) :
    (refresh_cycle statsOut packetsOut stored_page).total_flows =
        (fetch_stats statsOut).packet_count ∧
      (refresh_cycle statsOut packetsOut stored_page).total_flows =
        (refresh_cycle statsOut packetsOut' stored_page).total_flows :=
  ⟨rfl, rfl⟩

/-- C7, counterexample: a 200 response whose parsed payload is missing the
`timestamps` field — a malformed payload in the spec's sense of
missing/invalid fields — is returned by `fetch_time_trends` unchanged, not
normalized to the four empty sequences. -/
theorem trends_malformed_payload_not_defaulted :
    fetch_time_trends
        (HttpOutcome.response 200 (some
          { timestamps := none, packet_rate := some [],
            flow_rate := some [], bytes_per_sec := some [] })) ≠
      trendsDefault := by
  decide

/-- C7 (amended): on a raised call (timeout or transport error), a non-2xx
status, or an unparseable body, every fetch returns its documented default —
`fetch_stats` the all-zero snapshot, `fetch_packets` the empty sequence,
`fetch_attack_distribution` the empty mapping, `fetch_time_trends` the four
empty sequences — and no exception propagates; `fetch_stats` also zero-fills
individually missing fields of a 2xx payload, but `fetch_attack_distribution`
and `fetch_time_trends` return a parseable 2xx payload unvalidated. -/
theorem fetch_fail_soft :
    (∀ out : HttpOutcome StatsJson, fetchFailed out →
      fetch_stats out = statsDefault) ∧
    (∀ (count : Nat) (out : HttpOutcome (List PacketInfo)), fetchFailed out →
      fetch_packets count out = []) ∧
    (∀ out : HttpOutcome DistJson, fetchFailed out →
      fetch_attack_distribution out = distDefault) ∧
    (∀ out : HttpOutcome TrendsJson, fetchFailed out →
      fetch_time_trends out = trendsDefault) ∧
    (∀ data : StatsJson, fetch_stats (.response 200 (some data)) =
      { packet_count := data.packet_count.getD 0
        byte_count := data.byte_count.getD 0
        detection_rate := data.detection_rate.getD 0 }) := by
  refine ⟨?_, ?_, ?_, ?_, fun data => rfl⟩
  · rintro out (rfl | ⟨s, b, rfl, hbad | rfl⟩)
    · rfl
    · simp [fetch_stats, hbad]
    · by_cases hs : s = 200 <;> simp [fetch_stats, hs]
  · rintro count out (rfl | ⟨s, b, rfl, hbad | rfl⟩)
    · rfl
    · simp [fetch_packets, hbad]
    · by_cases hs : s = 200 <;> simp [fetch_packets, hs]
  · rintro out (rfl | ⟨s, b, rfl, hbad | rfl⟩)
    · rfl
    · simp [fetch_attack_distribution, hbad]
    · by_cases hs : s = 200 <;> simp [fetch_attack_distribution, hs]
  · rintro out (rfl | ⟨s, b, rfl, hbad | rfl⟩)
    · rfl
    · simp [fetch_time_trends, hbad]
    · by_cases hs : s = 200 <;> simp [fetch_time_trends, hs]

/-- C7 witness: the defaults on a raised call, and field zero-filling on a
2xx stats payload missing every field. -/
theorem fetch_fail_soft_witness :
    fetch_stats .exn = statsDefault ∧
      fetch_packets 10 .exn = [] ∧
      fetch_attack_distribution .exn = distDefault ∧
      fetch_time_trends .exn = trendsDefault ∧
      fetch_stats (.response 200 (some
          { packet_count := none, byte_count := none,
            detection_rate := none })) =
        { packet_count := 0, byte_count := 0, detection_rate := 0 } :=
  ⟨fetch_fail_soft.1 .exn (Or.inl rfl),
    fetch_fail_soft.2.1 10 .exn (Or.inl rfl),
    fetch_fail_soft.2.2.1 .exn (Or.inl rfl),
    fetch_fail_soft.2.2.2.1 .exn (Or.inl rfl),
    fetch_fail_soft.2.2.2.2
      { packet_count := none, byte_count := none, detection_rate := none }⟩

/-- A concrete successful `/api/packets` element used to exercise the
rendering decision. -/
def samplePacketInfo : PacketInfo :=
  { packet := some
      { timestamp := some 1700000000, src_ip := some "10.0.0.1",
        dest_ip := some "10.0.0.2", protocol := some "tcp",
        length := some 60 }
    prediction := some { label := some "DDoS", confidence := some 1 } }

/-- C1, counterexample: the stats call raises (timeout) while the flows call
succeeds with one record — the flows fetch yields a non-empty row list, yet
the rendered traffic section is the no-data warning, not the populated
table, because the whole section is gated on `total_flows > 0` and a failed
stats fetch forces `total_flows = 0`. -/
theorem stats_failure_suppresses_flow_table :
    fetch_packets flows_per_page
        (HttpOutcome.response 200 (some [samplePacketInfo])) ≠ [] ∧
      render_traffic HttpOutcome.exn
          (HttpOutcome.response 200 (some [samplePacketInfo])) 1 =
        TrafficView.warningNoData := by
  refine ⟨?_, rfl⟩
  decide

/-- C1 (amended): every failed stats fetch — raised call (timeout or
transport error), non-2xx status, or unparseable body — forces a zero total
and the no-data warning regardless of what the flows fetch returned; and the
populated table appears exactly when the stats-reported total is positive and
the flows fetch produced a non-empty row list, in which case the rows shown
are exactly the fetched ones. -/
theorem render_gated_on_stats_total :
    ∀ (statsOut : HttpOutcome StatsJson)
      (packetsOut : HttpOutcome (List PacketInfo)) (stored_page : Nat),
      (fetchFailed statsOut →
        (fetch_stats statsOut).packet_count = 0 ∧
          render_traffic statsOut packetsOut stored_page =
            TrafficView.warningNoData) ∧
      ((∃ rows s e, render_traffic statsOut packetsOut stored_page =
          TrafficView.table rows s e) ↔
        0 < (fetch_stats statsOut).packet_count ∧
          fetch_packets flows_per_page packetsOut ≠ []) ∧
      (∀ rows s e, render_traffic statsOut packetsOut stored_page =
          TrafficView.table rows s e →
        rows = fetch_packets flows_per_page packetsOut) := by
  intro statsOut packetsOut stored_page
  have hfail : fetchFailed statsOut → fetch_stats statsOut = statsDefault := by
    rintro (rfl | ⟨s, b, rfl, hbad | rfl⟩)
    · rfl
    · simp [fetch_stats, hbad]
    · by_cases hs : s = 200 <;> simp [fetch_stats, hs]
  refine ⟨?_, ?_, ?_⟩
  · intro hf
    have h0 : (fetch_stats statsOut).packet_count = 0 := by
      rw [hfail hf]; rfl
    exact ⟨h0, by simp [render_traffic, refresh_cycle, h0]⟩
  · by_cases hpos : 0 < (fetch_stats statsOut).packet_count <;>
      by_cases hne : fetch_packets flows_per_page packetsOut = [] <;>
        simp [render_traffic, refresh_cycle, hpos, hne]
  · intro rows s e heq
    by_cases hpos : 0 < (fetch_stats statsOut).packet_count
    · by_cases hne : fetch_packets flows_per_page packetsOut = []
      · simp [render_traffic, refresh_cycle, hpos, hne] at heq
      · simp [render_traffic, refresh_cycle, hpos, hne] at heq
        exact heq.1.symm
    · simp [render_traffic, refresh_cycle, hpos] at heq

/-- C1 witness: a non-2xx stats response forces the warning despite a
successful non-empty flows fetch, and a 2xx stats payload reporting 97 flows
together with one fetched record renders the populated table. -/
theorem render_gated_on_stats_total_witness :
    fetchFailed (HttpOutcome.response 500 (some
        { packet_count := some 97, byte_count := some 0,
          detection_rate := some 0 }) : HttpOutcome StatsJson) ∧
    ((fetch_stats (HttpOutcome.response 500 (some
        { packet_count := some 97, byte_count := some 0,
          detection_rate := some 0 }))).packet_count = 0 ∧
      render_traffic
          (HttpOutcome.response 500 (some
            { packet_count := some 97, byte_count := some 0,
              detection_rate := some 0 }))
          (HttpOutcome.response 200 (some [samplePacketInfo])) 1 =
        TrafficView.warningNoData) ∧
    ((∃ rows s e,
        render_traffic
            (HttpOutcome.response 200 (some
              { packet_count := some 97, byte_count := some 0,
                detection_rate := some 0 }))
            (HttpOutcome.response 200 (some [samplePacketInfo])) 1 =
          TrafficView.table rows s e) ↔
      0 < (fetch_stats (HttpOutcome.response 200 (some
            { packet_count := some 97, byte_count := some 0,
              detection_rate := some 0 }))).packet_count ∧
        fetch_packets flows_per_page
            (HttpOutcome.response 200 (some [samplePacketInfo])) ≠ []) :=
  ⟨Or.inr ⟨500, _, rfl, Or.inl (by decide)⟩,
    (render_gated_on_stats_total
        (HttpOutcome.response 500 (some
          { packet_count := some 97, byte_count := some 0,
            detection_rate := some 0 }))
        (HttpOutcome.response 200 (some [samplePacketInfo])) 1).1
      (Or.inr ⟨500, _, rfl, Or.inl (by decide)⟩),
    (render_gated_on_stats_total
        (HttpOutcome.response 200 (some
          { packet_count := some 97, byte_count := some 0,
            detection_rate := some 0 }))
        (HttpOutcome.response 200 (some [samplePacketInfo])) 1).2.1⟩

end Dashboard
